import Mathlib

/-!
Verification of the Profanity windowing core (`src/ui/window.c`) and the
tray notifier (`src/tray.c`) against their natural-language specification.

The C code renders through ncurses by issuing a sequence of attribute
toggles (`wattron` / `wattroff`) and text writes (`wprintw` / `waddstr`)
on a pad.  We embed a pad as the trace of those rendering calls
(`OutEvent`), and a window (`ProfWin`) as the struct built by
`win_create`, with the function-pointer table modelled by enumerations of
the functions actually installed.  Blitting (`win_refresh` / `prefresh`)
is modelled on an abstract cell grid, since the claims about it concern
only the copy geometry and purity, not how cells arise from writes.

Wall-clock time, the local timezone, the filesystem and GTK are external
inputs; they are passed explicitly (`Clock`, `IconsEnv`).
-/

namespace Profanity

/-- Theme attributes used by `window.c` (`COLOUR_*` macros from
`config/theme.h`).  Each named constant is its own attribute. -/
inductive Attr where
  | text
  | time
  | online
  | away
  | chat
  | dnd
  | xa
  | offline
  | them
  deriving DecidableEq, Repr

/-- One rendering call on an ncurses pad: `wattron`, `wattroff`, or a text
write (`wprintw` / `waddstr`). -/
inductive OutEvent where
  | attrOn (a : Attr)
  | attrOff (a : Attr)
  | write (s : String)
  deriving DecidableEq, Repr

/-- `win_type_t` (from `ui/window.h`, not shipped in `src/`): the five kinds
named in `win_create`'s switch, plus one value standing for any
unrecognized kind (the `default:` arm). -/
inductive WinType where
  | WIN_CONSOLE
  | WIN_CHAT
  | WIN_MUC
  | WIN_PRIVATE
  | WIN_DUCK
  | WIN_UNKNOWN
  deriving DecidableEq, Repr

/-- The error-message handlers installed by `win_create`:
`_default_handle_error_message` (in `window.c`) or
`muc_handle_error_message` (external, `ui/muc_window.h`). -/
inductive ErrorHandler where
  | defaultHandler
  | mucHandler
  deriving DecidableEq, Repr

/-- The only incoming-message printer that `win_create` ever installs:
`_print_incoming_message`. -/
inductive IncomingPrinter where
  | printIncoming
  deriving DecidableEq, Repr

/-- `struct prof_win_t`.  The ncurses pad `win` is modelled by the trace of
rendering calls issued on it (`buffer`); its cell contents, needed only by
`win_refresh`, are modelled separately as an abstract grid. -/
structure ProfWin where
  win_from : String
  buffer : List OutEvent
  y_pos : Nat
  paged : Nat
  unread : Nat
  history_shown : Nat
  type : WinType
  handle_error_message : ErrorHandler
  print_incoming_message : Option IncomingPrinter
  deriving DecidableEq, Repr

/-- `win_create` (`window.c:48`): allocates the window, zeroes the view
state, and installs the per-kind behavior table by the switch on `type`. -/
def win_create (title : String) (_cols : Nat) (type : WinType) : ProfWin :=
  let handler : ErrorHandler :=
    match type with
    | .WIN_CONSOLE => .defaultHandler
    | .WIN_CHAT => .defaultHandler
    | .WIN_MUC => .mucHandler
    | .WIN_PRIVATE => .defaultHandler
    | .WIN_DUCK => .defaultHandler
    | .WIN_UNKNOWN => .defaultHandler
  let printer : Option IncomingPrinter :=
    match type with
    | .WIN_CONSOLE => none
    | .WIN_CHAT => some .printIncoming
    | .WIN_MUC => none
    | .WIN_PRIVATE => some .printIncoming
    | .WIN_DUCK => none
    | .WIN_UNKNOWN => none
  { win_from := title
    buffer := []
    y_pos := 0
    paged := 0
    unread := 0
    history_shown := 0
    type := type
    handle_error_message := handler
    print_incoming_message := printer }

/-- External wall-clock inputs read by the rendering code:
`nowLocalFmt` is `g_date_time_format(g_date_time_new_now_local(), "%H:%M:%S")`,
`nowUs` the current instant in microseconds (used for idle spans), and
`tzOffsetSec` the local timezone's offset from UTC in seconds (an input of
the environment; the code under `src/` never reads it). -/
structure Clock where
  nowLocalFmt : String
  nowUs : Int
  tzOffsetSec : Int
  deriving DecidableEq, Repr

/-- Append rendering events to a window's pad. -/
def emit (self : ProfWin) (evs : List OutEvent) : ProfWin :=
  { self with buffer := self.buffer ++ evs }

/-- `_win_print_time` (`window.c:110`): `wattron(COLOUR_TIME)`, then
`wprintw("%s %c ", date_fmt, show_char)` with the current local time,
then `wattroff(COLOUR_TIME)`. -/
def win_print_time (self : ProfWin) (clock : Clock) (show_char : Char) : ProfWin :=
  emit self
    [ .attrOn .time,
      .write (clock.nowLocalFmt ++ " " ++ String.singleton show_char ++ " "),
      .attrOff .time ]

/-- `g_strcmp0(p, q) == 0` for a possibly-NULL `p` and a literal `q`:
true exactly when `p` is non-NULL and equals `q`. -/
def g_strcmp0_eq (p : Option String) (q : String) : Bool :=
  p == some q

/-- The attribute selected by `_win_presence_colour_on` (`window.c:146`):
its chain of `g_strcmp0` tests, falling through to `COLOUR_OFFLINE`. -/
def presence_colour_attr_on (presence : Option String) : Attr :=
  if g_strcmp0_eq presence "online" then .online
  else if g_strcmp0_eq presence "away" then .away
  else if g_strcmp0_eq presence "chat" then .chat
  else if g_strcmp0_eq presence "dnd" then .dnd
  else if g_strcmp0_eq presence "xa" then .xa
  else .offline

/-- The attribute selected by `_win_presence_colour_off` (`window.c:164`):
its own chain of `g_strcmp0` tests, falling through to `COLOUR_OFFLINE`. -/
def presence_colour_attr_off (presence : Option String) : Attr :=
  if g_strcmp0_eq presence "online" then .online
  else if g_strcmp0_eq presence "away" then .away
  else if g_strcmp0_eq presence "chat" then .chat
  else if g_strcmp0_eq presence "dnd" then .dnd
  else if g_strcmp0_eq presence "xa" then .xa
  else .offline

/-- `_win_presence_colour_on` as a rendering step: `wattron` of the
selected attribute. -/
def win_presence_colour_on (self : ProfWin) (presence : Option String) : ProfWin :=
  emit self [ .attrOn (presence_colour_attr_on presence) ]

/-- `_win_presence_colour_off` as a rendering step: `wattroff` of the
selected attribute. -/
def win_presence_colour_off (self : ProfWin) (presence : Option String) : ProfWin :=
  emit self [ .attrOff (presence_colour_attr_off presence) ]

/-- `_default_handle_error_message` (`window.c:230`): returns `FALSE` and
issues no rendering call; the window is returned untouched. -/
def default_handle_error_message (self : ProfWin) (_from _err_msg : String) :
    Bool × ProfWin :=
  (false, self)

/-- Render a nonnegative number of hours/minutes/seconds the way C's
`%d` does for a `Nat`-sized value. -/
def natToken (n : Nat) (unit : String) : String :=
  toString n ++ unit

/-- `strncmp(message, "/me ", 4) == 0`: the first four bytes of `message`
equal `'/','m','e',' '`.  Since those four bytes are ASCII, this is the
same as the first four characters of `message` being exactly them (a
shorter string hits its NUL terminator and differs). -/
def strncmp_me4 (message : String) : Bool :=
  message.data.take 4 == ("/me " : String).data

/-- `message + 4`: the suffix of `message` after its first four bytes;
used only under `strncmp_me4`, where those four bytes are the ASCII
characters of `"/me "`. -/
def after_me (message : String) : String :=
  String.mk (message.data.drop 4)

/-- Zero-padded two-digit decimal field, as `%H` / `%M` / `%S` print it. -/
def two_digits (n : Nat) : String :=
  (if n < 10 then "0" else "") ++ toString n

/-- `g_date_time_new_from_timeval_utc(tv)` followed by
`g_date_time_format(time, "%H:%M:%S")`: the UTC wall-clock time of day of
the instant `tvSec` seconds after the epoch, formatted `HH:MM:SS`.  No
timezone conversion is involved. -/
def format_timeval_utc_hms (tvSec : Nat) : String :=
  let s := tvSec % 86400
  two_digits (s / 3600) ++ ":" ++ two_digits (s % 3600 / 60) ++ ":" ++ two_digits (s % 60)

/-- Modelled from the spec: the spec's timestamp rule for
`print_incoming_message` says the given timestamp is rendered "via
UTC→local conversion", i.e. the UTC instant is converted to local time
(here: shifted by the local zone offset) before being formatted as
`HH:MM:SS`.  No such conversion appears in `window.c`; this definition
exists only to be compared with `format_timeval_utc_hms`. -/
def format_timeval_local_hms_spec (tzOffsetSec : Int) (tvSec : Nat) : String :=
  let s := (((tvSec : Int) + tzOffsetSec) % 86400).toNat
  two_digits (s / 3600) ++ ":" ++ two_digits (s % 3600 / 60) ++ ":" ++ two_digits (s % 60)

/-- The body part of `_print_incoming_message` (`window.c:253`): the
`strncmp(message, "/me ", 4)` test choosing between the action line and
the normal line. -/
def incoming_body (from_ message : String) : List OutEvent :=
  if strncmp_me4 message then
    [ .attrOn .them,
      .write ("*" ++ from_ ++ " "),
      .write (after_me message),
      .write "\n",
      .attrOff .them ]
  else
    [ .attrOn .them,
      .write (from_ ++ ": "),
      .attrOff .them,
      .write message,
      .write "\n" ]

/-- The timestamp part of `_print_incoming_message` (`window.c:241`): with
no timestamp, `print_time(self, '-')` (current local time); with a
timestamp, the instant formatted by `g_date_time_new_from_timeval_utc` in
the `COLOUR_TIME` attribute. -/
def incoming_stamp (self : ProfWin) (clock : Clock) (tv_stamp : Option Nat) : ProfWin :=
  match tv_stamp with
  | none => win_print_time self clock '-'
  | some tv =>
      emit self
        [ .attrOn .time,
          .write (format_timeval_utc_hms tv ++ " - "),
          .attrOff .time ]

/-- `_print_incoming_message` (`window.c:237`): timestamp part, then body
part. -/
def print_incoming_message (self : ProfWin) (clock : Clock) (tv_stamp : Option Nat)
    (from_ message : String) : ProfWin :=
  emit (incoming_stamp self clock tv_stamp) (incoming_body from_ message)

/-- The text visible in a trace: the concatenation of its writes. -/
def renderedText : List OutEvent → String
  | [] => ""
  | .write s :: rest => s ++ renderedText rest
  | .attrOn _ :: rest => renderedText rest
  | .attrOff _ :: rest => renderedText rest

/-- `G_TIME_SPAN_HOUR`: microseconds per hour. -/
def G_TIME_SPAN_HOUR : Int := 3600000000

/-- `G_TIME_SPAN_MINUTE`: microseconds per minute. -/
def G_TIME_SPAN_MINUTE : Int := 60000000

/-- `G_TIME_SPAN_SECOND`: microseconds per second. -/
def G_TIME_SPAN_SECOND : Int := 1000000

/-- The idle-duration tokens of `_win_show_contact` (`window.c:202`):
`span` is the `GTimeSpan` (microseconds) between now and `last_activity`;
hours, then minutes, then seconds are divided out with C's truncating
`/`, each remainder carried down by subtraction; the hours token is
emitted only when `hours > 0`, the minutes and seconds tokens always. -/
def idle_tokens (span : Int) : List OutEvent :=
  let hours := Int.tdiv span G_TIME_SPAN_HOUR
  let span1 := span - hours * G_TIME_SPAN_HOUR
  let minutes := Int.tdiv span1 G_TIME_SPAN_MINUTE
  let span2 := span1 - minutes * G_TIME_SPAN_MINUTE
  let seconds := Int.tdiv span2 G_TIME_SPAN_SECOND
  (if hours > 0 then [OutEvent.write (toString hours ++ "h")] else [])
    ++ [OutEvent.write (toString minutes ++ "m")]
    ++ [OutEvent.write (toString seconds ++ "s")]

/-- A `PContact` as read by `_win_show_contact`: each accessor may return
NULL.  `last_activity` is the contact's last-activity instant in
microseconds. -/
structure PContact where
  barejid : String
  name : Option String
  presence : Option String
  status : Option String
  last_activity : Option Int
  deriving DecidableEq, Repr

/-- glibc's rendering of a NULL argument to `%s`. -/
def printf_str : Option String → String
  | some s => s
  | none => "(null)"

/-- `_win_show_contact` (`window.c:182`): time prefix, presence colour on,
name (or bare JID), `" is <presence>"`, optional idle decomposition,
optional quoted status, newline, presence colour off. -/
def win_show_contact (self : ProfWin) (clock : Clock) (contact : PContact) : ProfWin :=
  let self1 := win_print_time self clock '-'
  let self2 := win_presence_colour_on self1 contact.presence
  emit self2
    ([ OutEvent.write (match contact.name with
        | some n => n
        | none => contact.barejid) ]
      ++ [ OutEvent.write (" is " ++ printf_str contact.presence) ]
      ++ (match contact.last_activity with
          | some la => OutEvent.write ", idle " :: idle_tokens (clock.nowUs - la)
          | none => [])
      ++ (match contact.status with
          | some st => [OutEvent.write (", \"" ++ st ++ "\"")]
          | none => [])
      ++ [ OutEvent.write "\n",
           OutEvent.attrOff (presence_colour_attr_off contact.presence) ])

/-- `prefresh(pad, pminrow, pmincol, sminrow, smincol, smaxrow, smaxcol)`:
copies the pad rectangle whose top-left corner is `(pminrow, pmincol)`
onto the screen rectangle `sminrow..smaxrow × smincol..smaxcol`, leaving
every other screen cell as it was.  The pad itself is read-only here. -/
def prefresh (pad : Nat → Nat → Char) (pminrow pmincol sminrow smincol smaxrow smaxcol : Nat)
    (scr : Nat → Nat → Char) : Nat → Nat → Char :=
  fun r c =>
    if sminrow ≤ r ∧ r ≤ smaxrow ∧ smincol ≤ c ∧ c ≤ smaxcol then
      pad (pminrow + (r - sminrow)) (pmincol + (c - smincol))
    else scr r c

/-- `win_refresh` (`window.c:138`): reads the screen size and calls
`prefresh(self->win, self->y_pos, 0, 1, 0, rows-3, cols-1)`.  `pad` is
the cell contents of `self->win`; the function returns the (untouched)
window together with the new screen contents. -/
def win_refresh (self : ProfWin) (pad : Nat → Nat → Char) (rows cols : Nat)
    (scr : Nat → Nat → Char) : ProfWin × (Nat → Nat → Char) :=
  (self, prefresh pad self.y_pos 0 1 0 (rows - 3) (cols - 1) scr)

/-! ## Tray notifier (`src/tray.c`) -/

/-- The external inputs of `_get_icons`: the compile-time `ICONS_PATH`
(absent when the macro is undefined), `xdg_get_config_home()`, and the
state of the user icon directory `<config>/profanity/icons`:
whether `g_file_test(..., G_FILE_TEST_IS_DIR)` holds, whether
`g_dir_open` succeeds, and the entry names `g_dir_read_name` yields. -/
structure IconsEnv where
  iconsPath : Option String
  xdgConfigHome : String
  userDirIsDir : Bool
  userDirOpens : Bool
  userDirEntries : List String
  deriving DecidableEq, Repr

/-- The outcome of `_get_icons`: the two `GString*` globals (NULL when
never assigned) and whether the failure branch printed to stderr. -/
structure IconsResult where
  icon_filename : Option String
  icon_msg_filename : Option String
  loggedError : Bool
  deriving DecidableEq, Repr

/-- `_get_icons` (`tray.c:59`): when `ICONS_PATH` is defined, both
filenames are first set under it; then, if the user icon directory
exists, its entries are scanned and a matching `proIcon.png` /
`proIconMsg.png` entry redirects the corresponding filename there; when
the directory does not exist the function returns silently, and when it
exists but `g_dir_open` fails the error is printed to stderr. -/
def get_icons (env : IconsEnv) : IconsResult :=
  let installed : Option String × Option String :=
    match env.iconsPath with
    | some p => (some (p ++ "/proIcon.png"), some (p ++ "/proIconMsg.png"))
    | none => (none, none)
  let iconsDir := env.xdgConfigHome ++ "/profanity/icons"
  if !env.userDirIsDir then
    { icon_filename := installed.1
      icon_msg_filename := installed.2
      loggedError := false }
  else if env.userDirOpens then
    let scan := fun (acc : Option String × Option String) (name : String) =>
      if name == "proIcon.png" then
        (some (iconsDir ++ "/proIcon.png"), acc.2)
      else if name == "proIconMsg.png" then
        (acc.1, some (iconsDir ++ "/proIconMsg.png"))
      else acc
    let res := env.userDirEntries.foldl scan installed
    { icon_filename := res.1
      icon_msg_filename := res.2
      loggedError := false }
  else
    { icon_filename := installed.1
      icon_msg_filename := installed.2
      loggedError := true }

/-- A fatal outcome of the tray code: dereferencing a NULL `GString*`
(`icon_filename->str` / `icon_msg_filename->str`) is undefined behavior
and crashes. -/
inductive TrayFatal where
  | nullDeref
  deriving DecidableEq, Repr

/-- The tray's file-scope state (`tray.c:42`): the status icon (carrying
the file it currently shows; `none` is NULL), the two icon filenames, the
last unread count, the shutdown flag, and whether the timeout source is
installed. -/
structure TrayState where
  prof_tray : Option String
  icon_filename : Option String
  icon_msg_filename : Option String
  unread_messages : Int
  shutting_down : Bool
  timerActive : Bool
  deriving DecidableEq, Repr

/-- What one invocation of the timer callback did: the value it returned
to GLib (`false` cancels the source), the state it left, whether it
queried `wins_get_total_unread`, and the file it passed to
`gtk_status_icon_set_from_file` (if any). -/
structure TickResult where
  keepPolling : Bool
  state : TrayState
  queriedUnread : Bool
  iconSet : Option String
  deriving DecidableEq, Repr

/-- `create_tray` (`tray.c:134`): `_get_icons()`, then
`gtk_status_icon_new_from_file(icon_filename->str)` — a fatal NULL
dereference when `_get_icons` left `icon_filename` NULL — then clears the
shutdown flag and installs the 5-second timer. -/
def create_tray (env : IconsEnv) : Except TrayFatal TrayState :=
  let r := get_icons env
  match r.icon_filename with
  | none => .error .nullDeref
  | some f =>
      .ok { prof_tray := some f
            icon_filename := r.icon_filename
            icon_msg_filename := r.icon_msg_filename
            unread_messages := 0
            shutting_down := false
            timerActive := true }

/-- `_tray_change_icon` (`tray.c:114`): if `shutting_down` is set, return
`false` at once (no query, no icon change); otherwise store
`wins_get_total_unread()` (`totalUnread`, an external input), pick the
message icon when it is nonzero and the plain icon otherwise — a fatal
NULL dereference when that filename is NULL — apply it to the status icon
(a no-op with a warning when `prof_tray` is NULL), and return `true`. -/
def tray_change_icon (st : TrayState) (totalUnread : Int) : Except TrayFatal TickResult :=
  if st.shutting_down then
    .ok { keepPolling := false
          state := st
          queriedUnread := false
          iconSet := none }
  else
    let st1 := { st with unread_messages := totalUnread }
    let fname := if totalUnread ≠ 0 then st1.icon_msg_filename else st1.icon_filename
    match fname with
    | none => .error .nullDeref
    | some f =>
        let st2 :=
          match st1.prof_tray with
          | some _ => { st1 with prof_tray := some f }
          | none => st1
        .ok { keepPolling := true
              state := st2
              queriedUnread := true
              iconSet := some f }

/-- `destroy_tray` (`tray.c:142`): sets the shutdown flag, removes the
timer source, destroys and NULLs the status icon, and frees both icon
filename strings. -/
def destroy_tray (st : TrayState) : TrayState :=
  { st with shutting_down := true
            timerActive := false
            prof_tray := none
            icon_filename := none
            icon_msg_filename := none }

end Profanity

namespace Profanity

/-- C1: the behavior table installed by `win_create` has a non-null
`print_incoming_message` entry exactly for the kinds `WIN_CHAT` and
`WIN_PRIVATE`; for console, MUC, duck and unrecognized kinds the entry
is null. -/
theorem win_create_print_incoming_iff (title : String) (cols : Nat) (k : WinType) :
    (win_create title cols k).print_incoming_message.isSome = true ↔
      (k = WinType.WIN_CHAT ∨ k = WinType.WIN_PRIVATE) := by
  cases k <;> simp [win_create]

/-- C6: for every window whose kind installed the default error handler,
`_default_handle_error_message` returns `FALSE` and leaves the window —
in particular its buffer — completely unchanged. -/
theorem default_handle_error_message_inert (title : String) (cols : Nat) (k : WinType)
    (from_ error_text : String)
    (_h : (win_create title cols k).handle_error_message = ErrorHandler.defaultHandler) :
    default_handle_error_message (win_create title cols k) from_ error_text =
      (false, win_create title cols k) :=
  rfl

/-- Witness for C6 at a console window. -/
theorem default_handle_error_message_inert_witness :
    default_handle_error_message (win_create "console" 80 WinType.WIN_CONSOLE) "a@b" "gone" =
      (false, win_create "console" 80 WinType.WIN_CONSOLE) :=
  default_handle_error_message_inert "console" 80 WinType.WIN_CONSOLE "a@b" "gone"
    (by decide)

/-- C9: once `destroy_tray` has set the shutdown flag (and removed the
timer and released the icon and filename resources), any subsequently
invoked timer tick sees the flag first: it performs no unread-count
query, sets no icon, leaves the state exactly as `destroy_tray` left it,
and returns `false`, the value that cancels further polling. -/
theorem tray_tick_after_destroy_inert (st : TrayState) (totalUnread : Int) :
    tray_change_icon (destroy_tray st) totalUnread =
      Except.ok { keepPolling := false
                  state := destroy_tray st
                  queriedUnread := false
                  iconSet := none }
    ∧ (destroy_tray st).shutting_down = true
    ∧ (destroy_tray st).timerActive = false
    ∧ (destroy_tray st).prof_tray = none
    ∧ (destroy_tray st).icon_filename = none
    ∧ (destroy_tray st).icon_msg_filename = none := by
  refine ⟨?_, rfl, rfl, rfl, rfl, rfl⟩
  simp [tray_change_icon, destroy_tray]

/-- C3: `_win_presence_colour_on` and `_win_presence_colour_off` select
the same attribute for every presence value (NULL included); the five
recognized presence strings get five pairwise-distinct attributes, and
every other value falls through to `COLOUR_OFFLINE` in both. -/
theorem presence_colour_on_off_agree :
    (∀ p : Option String, presence_colour_attr_on p = presence_colour_attr_off p)
    ∧ [presence_colour_attr_on (some "online"), presence_colour_attr_on (some "away"),
        presence_colour_attr_on (some "chat"), presence_colour_attr_on (some "dnd"),
        presence_colour_attr_on (some "xa")].Nodup
    ∧ (∀ p : Option String,
        p ∉ ([some "online", some "away", some "chat", some "dnd", some "xa"] :
            List (Option String)) →
        presence_colour_attr_on p = Attr.offline
          ∧ presence_colour_attr_off p = Attr.offline) := by
  refine ⟨fun p => rfl, by decide, ?_⟩
  intro p hp
  simp only [List.mem_cons, List.not_mem_nil, or_false, not_or] at hp
  obtain ⟨h1, h2, h3, h4, h5⟩ := hp
  constructor <;>
    simp [presence_colour_attr_on, presence_colour_attr_off, g_strcmp0_eq,
      h1, h2, h3, h4, h5]

/-- Witness for C3 at the unrecognized presence string "busy". -/
theorem presence_colour_on_off_agree_witness :
    presence_colour_attr_on (some "busy") = Attr.offline
      ∧ presence_colour_attr_off (some "busy") = Attr.offline :=
  presence_colour_on_off_agree.2.2 (some "busy") (by decide)

theorem data_me_space (rest : String) :
    ("/me " ++ rest).data = '/' :: 'm' :: 'e' :: ' ' :: rest.data := by
  simp [String.data_append]

theorem strncmp_me4_me_space (rest : String) :
    strncmp_me4 ("/me " ++ rest) = true := by
  simp [strncmp_me4, data_me_space, List.take]

theorem after_me_me_space (rest : String) : after_me ("/me " ++ rest) = rest := by
  simp [after_me, data_me_space]

theorem strncmp_me4_nonspace (c : Char) (rest : String) (hc : c ≠ ' ') :
    strncmp_me4 ("/me" ++ String.singleton c ++ rest) = false := by
  have h : ("/me" ++ String.singleton c ++ rest).data
      = '/' :: 'm' :: 'e' :: c :: rest.data := by
    simp [String.data_append, String.singleton]
  simp [strncmp_me4, h, List.take, hc]

/-- C2: `_print_incoming_message` renders the body by the content rule.
A message `"/me " ++ rest` becomes the action line `"*<from> <rest>"`
wholly inside the "them" attribute — no `": "` separator event and no
`"/me"` left in the emitted text — and any message failing the
`strncmp(message, "/me ", 4)` test becomes `"<from>: <message>"` with
only the sender span in the "them" attribute and the body outside it.
Both shapes end with a newline write.  At the spec's examples, the
visible text is `"*alice waves\n"` (containing neither `": "` nor
`"/me"`) and `"alice: hello\n"`. -/
theorem print_incoming_message_content_rule (self : ProfWin) (clock : Clock)
    (ts : Option Nat) (from_ rest message : String) :
    ((print_incoming_message self clock ts from_ ("/me " ++ rest)).buffer =
      (incoming_stamp self clock ts).buffer ++
        [ .attrOn .them, .write ("*" ++ from_ ++ " "), .write rest,
          .write "\n", .attrOff .them ])
    ∧ (strncmp_me4 message = false →
        (print_incoming_message self clock ts from_ message).buffer =
          (incoming_stamp self clock ts).buffer ++
            [ .attrOn .them, .write (from_ ++ ": "), .attrOff .them,
              .write message, .write "\n" ])
    ∧ renderedText (incoming_body "alice" "/me waves") = "*alice waves\n"
    ∧ ¬ List.IsInfix ": ".data (renderedText (incoming_body "alice" "/me waves")).data
    ∧ ¬ List.IsInfix "/me".data (renderedText (incoming_body "alice" "/me waves")).data
    ∧ renderedText (incoming_body "alice" "hello") = "alice: hello\n" := by
  refine ⟨?_, ?_, by decide, by decide, by decide, by decide⟩
  · simp [print_incoming_message, emit, incoming_body, strncmp_me4_me_space,
      after_me_me_space]
  · intro hm
    simp [print_incoming_message, emit, incoming_body, hm]

/-- Witness for C2 at the spec's plain-message example. -/
theorem print_incoming_message_content_rule_witness :
    (print_incoming_message (win_create "w" 80 WinType.WIN_CHAT)
        ⟨"12:00:00", 0, 0⟩ none "alice" "hello").buffer =
      (incoming_stamp (win_create "w" 80 WinType.WIN_CHAT)
          ⟨"12:00:00", 0, 0⟩ none).buffer ++
        [ .attrOn .them, .write ("alice" ++ ": "), .attrOff .them,
          .write "hello", .write "\n" ] :=
  (print_incoming_message_content_rule (win_create "w" 80 WinType.WIN_CHAT)
      ⟨"12:00:00", 0, 0⟩ none "alice" "" "hello").2.1 (by decide)

/-- C10: action rendering needs the message's first four characters to be
exactly `/`, `m`, `e`, space.  A bare `"/me"`, or `"/me"` followed by any
non-space character, fails `strncmp(message, "/me ", 4)` and is rendered
as a normal `"<from>: <message>"` line with the `"/me..."` text kept
literally in the body. -/
theorem me_action_needs_trailing_space (from_ rest : String) (c : Char)
    (hc : c ≠ ' ') :
    (incoming_body from_ "/me" =
      [ .attrOn .them, .write (from_ ++ ": "), .attrOff .them,
        .write "/me", .write "\n" ])
    ∧ (incoming_body from_ ("/me" ++ String.singleton c ++ rest) =
      [ .attrOn .them, .write (from_ ++ ": "), .attrOff .them,
        .write ("/me" ++ String.singleton c ++ rest), .write "\n" ])
    ∧ renderedText (incoming_body "alice" "/men") = "alice: /men\n"
    ∧ renderedText (incoming_body "alice" "/me") = "alice: /me\n" := by
  have h0 : strncmp_me4 "/me" = false := by decide
  have h1 := strncmp_me4_nonspace c rest hc
  exact ⟨by simp [incoming_body, h0], by simp [incoming_body, h1],
    by decide, by decide⟩

/-- Witness for C10 at the message `"/men"`. -/
theorem me_action_needs_trailing_space_witness :
    incoming_body "alice" ("/me" ++ String.singleton 'n' ++ "") =
      [ .attrOn .them, .write ("alice" ++ ": "), .attrOff .them,
        .write ("/me" ++ String.singleton 'n' ++ ""), .write "\n" ] :=
  (me_action_needs_trailing_space "alice" "" 'n' (by decide)).2.1

theorem idle_tokens_eval (u : Nat) : idle_tokens (u : Int) =
    (if 0 < u / 3600000000 then
        [OutEvent.write (toString (u / 3600000000) ++ "h")] else [])
      ++ [OutEvent.write (toString (u % 3600000000 / 60000000) ++ "m")]
      ++ [OutEvent.write (toString (u % 3600000000 % 60000000 / 1000000) ++ "s")] := by
  simp only [idle_tokens, G_TIME_SPAN_HOUR, G_TIME_SPAN_MINUTE, G_TIME_SPAN_SECOND]
  have e1 : Int.tdiv (u : Int) (3600000000 : Int) = ((u / 3600000000 : Nat) : Int) := rfl
  rw [e1]
  have e2 : ((u : Int) - ((u / 3600000000 : Nat) : Int) * 3600000000)
      = ((u % 3600000000 : Nat) : Int) := by omega
  rw [e2]
  have e3 : Int.tdiv ((u % 3600000000 : Nat) : Int) (60000000 : Int)
      = ((u % 3600000000 / 60000000 : Nat) : Int) := rfl
  rw [e3]
  have e4 : (((u % 3600000000 : Nat) : Int)
        - ((u % 3600000000 / 60000000 : Nat) : Int) * 60000000)
      = ((u % 3600000000 % 60000000 : Nat) : Int) := by omega
  rw [e4]
  have e5 : Int.tdiv ((u % 3600000000 % 60000000 : Nat) : Int) (1000000 : Int)
      = ((u % 3600000000 % 60000000 / 1000000 : Nat) : Int) := rfl
  rw [e5]
  have ts : ∀ n : Nat, toString ((n : Nat) : Int) = toString n := fun n => rfl
  simp only [ts, gt_iff_lt, Int.natCast_pos]

theorem idle_tokens_seconds (s : Nat) :
    renderedText (idle_tokens ((s : Int) * 1000000)) =
      (if 0 < s / 3600 then toString (s / 3600) ++ "h" else "")
        ++ toString (s % 3600 / 60) ++ "m" ++ toString (s % 60) ++ "s" := by
  have hcast : ((s : Int) * 1000000) = ((s * 1000000 : Nat) : Int) := by push_cast; ring
  rw [hcast, idle_tokens_eval]
  have d1 : s * 1000000 / 3600000000 = s / 3600 := by omega
  have d2 : s * 1000000 % 3600000000 / 60000000 = s % 3600 / 60 := by omega
  have d3 : s * 1000000 % 3600000000 % 60000000 / 1000000 = s % 60 := by omega
  rw [d1, d2, d3]
  by_cases h : 0 < s / 3600 <;> simp [h, renderedText, String.append_assoc]

/-- C4: the idle span of `_win_show_contact` is decomposed
hours→minutes→seconds with each remainder carried down: for an idle
duration of `s` whole seconds the emitted tokens read as
`[<h>h]<m>m<s>s`, with the hours token present exactly when the hour
count is positive; in particular 3661 s renders as `"1h1m1s"`, 59 s as
`"0m59s"` and 3600 s as `"1h0m0s"`.  When `last_activity` is present,
`_win_show_contact` emits `", idle "` followed by exactly these tokens
for the span between now and `last_activity`. -/
theorem show_contact_idle_decomposition :
    (∀ s : Nat, renderedText (idle_tokens ((s : Int) * 1000000)) =
        (if 0 < s / 3600 then toString (s / 3600) ++ "h" else "")
          ++ toString (s % 3600 / 60) ++ "m" ++ toString (s % 60) ++ "s")
    ∧ renderedText (idle_tokens (3661 * 1000000)) = "1h1m1s"
    ∧ renderedText (idle_tokens (59 * 1000000)) = "0m59s"
    ∧ renderedText (idle_tokens (3600 * 1000000)) = "1h0m0s"
    ∧ (∀ (self : ProfWin) (clock : Clock) (contact : PContact) (la : Int),
        contact.last_activity = some la →
        (win_show_contact self clock contact).buffer =
          (win_presence_colour_on (win_print_time self clock '-')
              contact.presence).buffer
            ++ [ OutEvent.write (match contact.name with
                  | some n => n
                  | none => contact.barejid),
                 OutEvent.write (" is " ++ printf_str contact.presence) ]
            ++ (OutEvent.write ", idle " :: idle_tokens (clock.nowUs - la))
            ++ (match contact.status with
                | some st => [OutEvent.write (", \"" ++ st ++ "\"")]
                | none => [])
            ++ [ OutEvent.write "\n",
                 OutEvent.attrOff (presence_colour_attr_off contact.presence) ]) := by
  refine ⟨idle_tokens_seconds, by decide, by decide, by decide, ?_⟩
  intro self clock contact la h
  simp [win_show_contact, emit, h, List.append_assoc]

/-- Witness for C4 at a contact idle since the epoch, observed 3661
seconds later. -/
theorem show_contact_idle_decomposition_witness :
    (win_show_contact (win_create "w" 80 WinType.WIN_CONSOLE)
        ⟨"12:00:00", 3661000000, 0⟩ ⟨"a@b", none, some "away", none, some 0⟩).buffer =
      (win_presence_colour_on (win_print_time (win_create "w" 80 WinType.WIN_CONSOLE)
          ⟨"12:00:00", 3661000000, 0⟩ '-') (some "away")).buffer
        ++ [ OutEvent.write "a@b", OutEvent.write (" is " ++ printf_str (some "away")) ]
        ++ (OutEvent.write ", idle " :: idle_tokens ((3661000000 : Int) - 0))
        ++ []
        ++ [ OutEvent.write "\n",
             OutEvent.attrOff (presence_colour_attr_off (some "away")) ] :=
  show_contact_idle_decomposition.2.2.2.2
    (win_create "w" 80 WinType.WIN_CONSOLE) ⟨"12:00:00", 3661000000, 0⟩
    ⟨"a@b", none, some "away", none, some 0⟩ 0 rfl

/-- C7: `win_refresh` is a pure view operation: it returns the window —
buffer, scroll position and all other fields — unchanged, and blits the
pad sub-rectangle that starts at the scroll position `y_pos` onto screen
rows `1 .. rows-3`, leaving screen row 0 and the bottom two rows
`rows-2`, `rows-1` (and everything right of column `cols-1`) as they
were; with no intervening writes a second refresh produces the identical
visible output. -/
theorem win_refresh_view (self : ProfWin) (pad : Nat → Nat → Char) (rows cols : Nat)
    (scr : Nat → Nat → Char) (hrows : 3 ≤ rows) :
    ((win_refresh self pad rows cols scr).1 = self)
    ∧ (∀ r c, 1 ≤ r → r ≤ rows - 3 → c ≤ cols - 1 →
        (win_refresh self pad rows cols scr).2 r c = pad (self.y_pos + (r - 1)) c)
    ∧ (∀ c, (win_refresh self pad rows cols scr).2 0 c = scr 0 c)
    ∧ (∀ r c, rows - 2 ≤ r → (win_refresh self pad rows cols scr).2 r c = scr r c)
    ∧ ((win_refresh self pad rows cols
          ((win_refresh self pad rows cols scr).2)).2
        = (win_refresh self pad rows cols scr).2) := by
  refine ⟨rfl, ?_, ?_, ?_, ?_⟩
  · intro r c h1 h2 h3
    simp [win_refresh, prefresh, h1, h2, h3]
  · intro c
    simp [win_refresh, prefresh]
  · intro r c hr
    have hno : ¬ (r ≤ rows - 3) := by omega
    simp [win_refresh, prefresh, hno]
  · funext r c
    by_cases h : 1 ≤ r ∧ r ≤ rows - 3 ∧ c ≤ cols - 1
    · simp [win_refresh, prefresh, h.1, h.2.1, h.2.2]
    · simp only [win_refresh, prefresh, Nat.zero_le, true_and]
      rw [if_neg, if_neg] <;> simpa using h

/-- Witness for C7 on a 5×4 screen. -/
theorem win_refresh_view_witness :
    ((win_refresh (win_create "w" 5 WinType.WIN_CONSOLE) (fun _ _ => 'p') 5 4
        (fun _ _ => 's')).1 = win_create "w" 5 WinType.WIN_CONSOLE)
    ∧ ((win_refresh (win_create "w" 5 WinType.WIN_CONSOLE) (fun _ _ => 'p') 5 4
        (fun _ _ => 's')).2 1 2
        = (fun _ _ => 'p') ((win_create "w" 5 WinType.WIN_CONSOLE).y_pos + (1 - 1)) 2)
    ∧ ((win_refresh (win_create "w" 5 WinType.WIN_CONSOLE) (fun _ _ => 'p') 5 4
        (fun _ _ => 's')).2 0 0 = (fun _ _ => 's') 0 0)
    ∧ ((win_refresh (win_create "w" 5 WinType.WIN_CONSOLE) (fun _ _ => 'p') 5 4
        (fun _ _ => 's')).2 3 0 = (fun _ _ => 's') 3 0)
    ∧ ((win_refresh (win_create "w" 5 WinType.WIN_CONSOLE) (fun _ _ => 'p') 5 4
          ((win_refresh (win_create "w" 5 WinType.WIN_CONSOLE) (fun _ _ => 'p') 5 4
              (fun _ _ => 's')).2)).2
        = (win_refresh (win_create "w" 5 WinType.WIN_CONSOLE) (fun _ _ => 'p') 5 4
            (fun _ _ => 's')).2) := by
  have h := win_refresh_view (win_create "w" 5 WinType.WIN_CONSOLE) (fun _ _ => 'p') 5 4
    (fun _ _ => 's') (by decide)
  exact ⟨h.1, h.2.1 1 2 (by decide) (by decide) (by decide), h.2.2.1 0,
    h.2.2.2.1 3 0 (by decide), h.2.2.2.2⟩

/-- C5 counterexample: at local offset +1 h (3600 s) and timestamp 0
(midnight UTC), `_print_incoming_message` renders the prefix from the
UTC wall time, `"00:00:00 - "`, not from the local time `"01:00:00"`
that the claim's UTC→local conversion rule prescribes. -/
theorem incoming_stamp_not_local_counterexample :
    ((incoming_stamp (win_create "w" 80 WinType.WIN_CHAT) ⟨"01:00:00", 0, 3600⟩
        (some 0)).buffer ≠
      [ OutEvent.attrOn .time,
        OutEvent.write (format_timeval_local_hms_spec 3600 0 ++ " - "),
        OutEvent.attrOff .time ])
    ∧ ((incoming_stamp (win_create "w" 80 WinType.WIN_CHAT) ⟨"01:00:00", 0, 3600⟩
        (some 0)).buffer =
      [ OutEvent.attrOn .time,
        OutEvent.write (format_timeval_utc_hms 0 ++ " - "),
        OutEvent.attrOff .time ])
    ∧ format_timeval_local_hms_spec 3600 0 = "01:00:00"
    ∧ format_timeval_utc_hms 0 = "00:00:00" := by
  decide

/-- C5 amended: with a timestamp, the prefix is the instant formatted as
`HH:MM:SS` in UTC — no conversion to local time, so it does not depend on
the clock environment at all — rendered in the timestamp attribute and
followed by `" - "`; with no timestamp, the current local wall-clock time
is rendered by `print_time` with the `'-'` live marker. -/
theorem print_incoming_timestamp_branches (self : ProfWin) (clock : Clock) (t : Nat)
    (from_ message : String) :
    ((print_incoming_message self clock (some t) from_ message).buffer =
      self.buffer ++ ([ OutEvent.attrOn .time,
          OutEvent.write (format_timeval_utc_hms t ++ " - "),
          OutEvent.attrOff .time ] ++ incoming_body from_ message))
    ∧ ((print_incoming_message self clock none from_ message).buffer =
      self.buffer ++ ([ OutEvent.attrOn .time,
          OutEvent.write (clock.nowLocalFmt ++ " - "),
          OutEvent.attrOff .time ] ++ incoming_body from_ message))
    ∧ (∀ clk2 : Clock, (incoming_stamp self clk2 (some t)).buffer
        = (incoming_stamp self clock (some t)).buffer) := by
  have hlit : (" " : String) ++ (String.singleton '-' ++ " ") = " - " := rfl
  refine ⟨?_, ?_, fun clk2 => rfl⟩
  · simp [print_incoming_message, incoming_stamp, emit, List.append_assoc]
  · simp [print_incoming_message, incoming_stamp, win_print_time, emit,
      List.append_assoc, String.append_assoc, hlit]

/-- C8 counterexample: with no compile-time `ICONS_PATH` and no user icon
directory, `_get_icons` yields no icon filename and logs nothing, and
`create_tray` then dereferences the NULL `icon_filename` — a fatal
error, contradicting "logged … never fatal". -/
theorem create_tray_null_icon_fatal :
    create_tray ⟨none, "/home/user/.config", false, false, []⟩ =
      Except.error TrayFatal.nullDeref
    ∧ (get_icons ⟨none, "/home/user/.config", false, false, []⟩).loggedError = false
    ∧ (get_icons ⟨none, "/home/user/.config", false, false, []⟩).icon_filename
        = none :=
  ⟨rfl, rfl, rfl⟩

/-- C8 amended: when a compile-time `ICONS_PATH` is configured and the
user icon directory yields nothing (it is absent, or it cannot be
opened), `_get_icons` keeps the compile-time filenames — logging only in
the cannot-open case, silently when the directory is absent — and tray
creation and every tick complete without a fatal error, in degraded mode
on the compile-time icons.  (Without a compile-time path the same
failure leaves the filenames NULL and creation is fatal, as the
counterexample shows.) -/
theorem get_icons_degraded_nonfatal (env : IconsEnv) (p : String)
    (hp : env.iconsPath = some p)
    (hfail : env.userDirIsDir = false ∨ env.userDirOpens = false) :
    ((get_icons env).icon_filename = some (p ++ "/proIcon.png"))
    ∧ ((get_icons env).icon_msg_filename = some (p ++ "/proIconMsg.png"))
    ∧ ((get_icons env).loggedError = (env.userDirIsDir && !env.userDirOpens))
    ∧ (∃ st : TrayState, create_tray env = Except.ok st
        ∧ st.prof_tray = some (p ++ "/proIcon.png")
        ∧ st.shutting_down = false
        ∧ ∀ unread : Int, ∃ tr : TickResult,
            tray_change_icon st unread = Except.ok tr ∧ tr.keepPolling = true) := by
  have hg : get_icons env =
      { icon_filename := some (p ++ "/proIcon.png")
        icon_msg_filename := some (p ++ "/proIconMsg.png")
        loggedError := (env.userDirIsDir && !env.userDirOpens) } := by
    rcases hfail with hdir | hopen
    · simp [get_icons, hp, hdir]
    · rcases hdir2 : env.userDirIsDir
      · simp [get_icons, hp, hdir2]
      · simp [get_icons, hp, hdir2, hopen]
  have hc : create_tray env = Except.ok
      { prof_tray := some (p ++ "/proIcon.png")
        icon_filename := some (p ++ "/proIcon.png")
        icon_msg_filename := some (p ++ "/proIconMsg.png")
        unread_messages := 0
        shutting_down := false
        timerActive := true } := by
    simp [create_tray, hg]
  refine ⟨by rw [hg], by rw [hg], by rw [hg], _, hc, rfl, rfl, ?_⟩
  intro unread
  by_cases hu : unread = 0
  · refine ⟨{ keepPolling := true
              state := { prof_tray := some (p ++ "/proIcon.png")
                         icon_filename := some (p ++ "/proIcon.png")
                         icon_msg_filename := some (p ++ "/proIconMsg.png")
                         unread_messages := unread
                         shutting_down := false
                         timerActive := true }
              queriedUnread := true
              iconSet := some (p ++ "/proIcon.png") }, ?_, rfl⟩
    simp [tray_change_icon, hu]
  · refine ⟨{ keepPolling := true
              state := { prof_tray := some (p ++ "/proIconMsg.png")
                         icon_filename := some (p ++ "/proIcon.png")
                         icon_msg_filename := some (p ++ "/proIconMsg.png")
                         unread_messages := unread
                         shutting_down := false
                         timerActive := true }
              queriedUnread := true
              iconSet := some (p ++ "/proIconMsg.png") }, ?_, rfl⟩
    simp [tray_change_icon, hu]

/-- Witness for C8 (amended) with `ICONS_PATH = "/usr/local/share/icons"`
and an unreadable user icon directory. -/
theorem get_icons_degraded_nonfatal_witness :
    ((get_icons ⟨some "/usr/local/share/icons", "/home/u/.config", true, false,
        []⟩).icon_filename = some ("/usr/local/share/icons" ++ "/proIcon.png"))
    ∧ ((get_icons ⟨some "/usr/local/share/icons", "/home/u/.config", true, false,
        []⟩).icon_msg_filename = some ("/usr/local/share/icons" ++ "/proIconMsg.png"))
    ∧ ((get_icons ⟨some "/usr/local/share/icons", "/home/u/.config", true, false,
        []⟩).loggedError = true) := by
  have h := get_icons_degraded_nonfatal
    ⟨some "/usr/local/share/icons", "/home/u/.config", true, false, []⟩
    "/usr/local/share/icons" rfl (Or.inr rfl)
  exact ⟨h.1, h.2.1, h.2.2.1⟩

end Profanity
